import Mathlib

/-!
Shallow embedding of the AuthGuard behavioural risk engine
(`src/intelligence_api/core_logic.py`, together with the decision mapping and
profile-update step of the verification route in `src/intelligence_api/api.py`).
Python floats are idealised as real numbers; Python `round` and `int` are
modelled explicitly.  Dictionary fields become `Option`-valued record fields
(`none` plays the role of an absent key).
-/

namespace AuthGuard

open Classical

/-- Python `round()` to an integer: round half to even (banker's rounding),
idealised over the reals. -/
noncomputable def pyRoundInt (x : ℝ) : ℤ :=
  if Int.fract x = 1 / 2 then (if Even ⌊x⌋ then ⌊x⌋ else ⌊x⌋ + 1) else round x

/-- Python `round(x, d)` to `d` decimal digits, as in `round(z_score, 2)`. -/
noncomputable def pyRound (x : ℝ) (d : ℕ) : ℝ :=
  (pyRoundInt (x * 10 ^ d) : ℝ) / 10 ^ d

/-- Python `int()`: truncation toward zero. -/
noncomputable def pyInt (x : ℝ) : ℤ := if 0 ≤ x then ⌊x⌋ else -⌊-x⌋

/-- Python `"; ".join(l)`. -/
def pyJoin (sep : String) : List String → String
  | [] => ""
  | [x] => x
  | x :: xs => x ++ sep ++ pyJoin sep xs

/-- numpy mean of a list (the engine only applies it to non-empty lists). -/
noncomputable def npMean (xs : List ℝ) : ℝ := xs.sum / xs.length

/-- numpy population standard deviation. -/
noncomputable def npStd (xs : List ℝ) : ℝ :=
  Real.sqrt (npMean (xs.map fun x => (x - npMean xs) ^ 2))

/-- numpy min over a list (the engine only applies it to non-empty lists). -/
noncomputable def listMin : List ℝ → ℝ
  | [] => 0
  | x :: xs => xs.foldl min x

/-- numpy max over a list (the engine only applies it to non-empty lists). -/
noncomputable def listMax : List ℝ → ℝ
  | [] => 0
  | x :: xs => xs.foldl max x

/-- numpy diff: consecutive differences. -/
def npDiff : List ℝ → List ℝ
  | [] => []
  | [_] => []
  | x :: y :: xs => (y - x) :: npDiff (y :: xs)

/-- Count of the data points falling in one histogram bin; numpy's last bin is
closed on the right, the others are half-open. -/
noncomputable def histBinCount (data : List ℝ) (lo hi : ℝ) (isLast : Bool) : ℕ :=
  (data.filter fun x => decide (lo ≤ x ∧ (if isLast = true then x ≤ hi else x < hi))).length

/-- numpy `histogram(data, bins, density=True)`: equal-width bins over the
observed `[min, max]` range (widened by 0.5 on each side when the range is
degenerate), each count divided by `n * width`. -/
noncomputable def npHistogramDensity (data : List ℝ) (bins : ℕ) : List ℝ :=
  let mn := listMin data
  let mx := listMax data
  let lo := if mn = mx then mn - 0.5 else mn
  let hi := if mn = mx then mx + 0.5 else mx
  let width := (hi - lo) / bins
  (List.range bins).map fun i =>
    (histBinCount data (lo + i * width) (lo + (i + 1) * width) (decide (i = bins - 1)) : ℝ)
      / (data.length * width)

/-- core_logic.calculate_shannon_entropy: histogram densities, keep the strictly
positive entries, entropy `= -Σ h·log2(h + 1e-10)` rounded to 3 digits; fewer
than 3 samples returns the fixed default 0.5. -/
noncomputable def calculate_shannon_entropy (data : List ℝ) (bins : ℕ) : ℝ :=
  if data = [] ∨ data.length < 3 then 0.5
  else
    let hist := (npHistogramDensity data bins).filter fun h => decide (0 < h)
    pyRound (-((hist.map fun h => h * Real.logb 2 (h + 1e-10)).sum)) 3

/-- Specification version of `shannonEntropy(values, bins)` (spec §4.1), for the
refinement comparison: bucket the values into equal-width bins over their
observed range, `p = count / n` for each non-empty bin, entropy `= -Σ p·log2 p`;
the same fixed default 0.5 below 3 samples. -/
noncomputable def shannonEntropySpec (data : List ℝ) (bins : ℕ) : ℝ :=
  if data = [] ∨ data.length < 3 then 0.5
  else
    let mn := listMin data
    let mx := listMax data
    let width := (mx - mn) / bins
    let masses := (List.range bins).map (fun i =>
      (histBinCount data (mn + i * width) (mn + (i + 1) * width) (decide (i = bins - 1)) : ℝ)
        / data.length);
    -(((masses.filter fun p => decide (0 < p)).map fun p => p * Real.logb 2 p).sum)

/-- core_logic.calculate_z_score: `|current - mean| / std` rounded to 2 digits;
0 when the baseline std is 0 or missing (`None`). -/
noncomputable def calculate_z_score (current_val baseline_mean : ℝ)
    (baseline_std : Option ℝ) : ℝ :=
  match baseline_std with
  | none => 0
  | some std => if std = 0 then 0 else pyRound (abs ((current_val - baseline_mean) / std)) 2

namespace RiskConfig

/-! RiskConfig constants from core_logic.py. -/

noncomputable def WEIGHTS_typing_dynamics : ℝ := 0.35

noncomputable def WEIGHTS_mouse_dynamics : ℝ := 0.25

noncomputable def WEIGHTS_geo_velocity : ℝ := 0.10

noncomputable def WEIGHTS_device_fingerprint : ℝ := 0.10

noncomputable def ENTROPY_THRESHOLD_LOW : ℝ := 0.8

noncomputable def Z_SCORE_THRESHOLD : ℝ := 2.5

noncomputable def VELOCITY_MAX_KMH : ℝ := 1000

end RiskConfig

/-- Latitude/longitude pair, the `{lat, lon}` dictionaries. -/
structure GeoPoint where
  lat : ℝ
  lon : ℝ

/-- One `{x, y, t}` sample of the mouse path. -/
structure MousePoint where
  x : ℝ
  y : ℝ
  t : ℝ

/-- Device fingerprint dictionary; `none` models an absent key. -/
structure Fingerprint where
  userAgent : Option String := none
  screenRes : Option String := none
  colorDepth : Option Int := none
  cores : Option Int := none
  timezone : Option String := none

/-- Python truthiness of the fingerprint dictionary: an empty dict is falsy. -/
def Fingerprint.isEmptyDict (fp : Fingerprint) : Bool :=
  fp.userAgent.isNone && fp.screenRes.isNone && fp.colorDepth.isNone
    && fp.cores.isNone && fp.timezone.isNone

/-- Telemetry dictionary handed to `analyze_risk`; every field is
absent-tolerant, with the same defaults `.get` supplies in the source. -/
structure Telemetry where
  flight_vec : List ℝ := []
  dwell_vec : List ℝ := []
  mouse_path : List MousePoint := []
  bot_flags : List String := []
  fingerprint : Option Fingerprint := none
  geo_location : Option GeoPoint := none

/-- Profile `baseline_stats` dictionary. -/
structure BaselineStats where
  flight_mean : Option ℝ := none
  flight_std : Option ℝ := none
  dwell_mean : Option ℝ := none
  dwell_std : Option ℝ := none

/-- User profile as read by the engine. -/
structure Profile where
  baseline_stats : BaselineStats := {}
  known_fingerprints : List Fingerprint := []
  last_geo_location : Option GeoPoint := none
  last_session_timestamp : Option ℝ := none
  is_locked : Bool := false
  locked_reason : Option String := none

/-- core_logic.detect_environment_anomalies: caller-declared bot flags pass
through, plus headless-browser, degenerate-screen and suspicious-hardware
checks on the fingerprint (missing fingerprint behaves as an empty dict, so
`screenRes` defaults to `0x0` and `cores` to `unknown`); duplicates are
removed (the Python `list(set(...))` order is unspecified, the embedding keeps
first occurrences). -/
def detect_environment_anomalies (telemetry : Telemetry) : List String :=
  let fingerprint := telemetry.fingerprint.getD {}
  let user_agent := fingerprint.userAgent.getD ""
  let screen_res := fingerprint.screenRes.getD "0x0"
  let anomalies := telemetry.bot_flags
    ++ (if "HeadlessChrome".data <:+: user_agent.data
           ∨ "PhantomJS".data <:+: user_agent.data
        then ["HEADLESS_BROWSER"] else [])
    ++ (if screen_res = "0x0" ∨ screen_res = "1x1"
        then ["INVALID_SCREEN_DIMENSIONS"] else [])
    ++ (if fingerprint.cores.isNone ∨ 64 < fingerprint.cores.getD 0
        then ["SUSPICIOUS_HARDWARE"] else [])
  anomalies.dedup

/-- numpy arctan2 with the quadrant/axis conventions of the C library. -/
noncomputable def npArctan2 (y x : ℝ) : ℝ :=
  if 0 < x then Real.arctan (y / x)
  else if x = 0 then
    (if 0 < y then Real.pi / 2 else if y < 0 then -(Real.pi / 2) else 0)
  else if 0 ≤ y then Real.arctan (y / x) + Real.pi
  else Real.arctan (y / x) - Real.pi

/-- core_logic.detect_bot_movement: fewer than 5 samples is the
`INSUFFICIENT_DATA` default `(0.5, [INSUFFICIENT_DATA])`; otherwise turning
angle entropy (12 bins), halved for straight-line movement and again for
robotic timing, plus one `MOUSE_TELEPORTATION` tag per jump above 500 px. -/
noncomputable def detect_bot_movement (mouse_path : List MousePoint) :
    ℝ × List String :=
  if mouse_path = [] ∨ mouse_path.length < 5 then (0.5, ["INSUFFICIENT_DATA"])
  else
    let points := mouse_path.map (fun p => (p.x, p.y))
    let angles := (List.range (points.length - 2)).map (fun i =>
      let p1 := points.getD i (0, 0)
      let p2 := points.getD (i + 1) (0, 0)
      let p3 := points.getD (i + 2) (0, 0)
      npArctan2 (p3.2 - p2.2) (p3.1 - p2.1) - npArctan2 (p2.2 - p1.2) (p2.1 - p1.1))
    let entropy0 := calculate_shannon_entropy angles 12
    let straight := 10 < points.length
      ∧ (npStd (points.map Prod.fst) < 2 ∨ npStd (points.map Prod.snd) < 2)
    let entropy1 := if straight then entropy0 * 0.5 else entropy0
    let anomalies1 : List String := if straight then ["STRAIGHT_LINE_MOVEMENT"] else []
    let robotic := 5 < mouse_path.length ∧ npStd (npDiff (mouse_path.map MousePoint.t)) < 5
    let entropy2 := if robotic then entropy1 * 0.5 else entropy1
    let anomalies2 := anomalies1 ++ (if robotic then ["ROBOTIC_TIMING"] else [])
    let teleports := ((List.range (points.length - 1)).filter (fun i =>
      decide (500 < Real.sqrt (((points.getD (i + 1) (0, 0)).1 - (points.getD i (0, 0)).1) ^ 2
        + ((points.getD (i + 1) (0, 0)).2 - (points.getD i (0, 0)).2) ^ 2)))).map
      (fun _ => "MOUSE_TELEPORTATION")
    (pyRound entropy2 3, anomalies2 ++ teleports)

/-- Metrics dictionary of analyze_typing_dynamics. -/
structure TypingMetrics where
  flight_z_score : Option ℝ := none
  flight_mean : Option ℝ := none
  dwell_z_score : Option ℝ := none
  dwell_mean : Option ℝ := none

/-- core_logic.analyze_typing_dynamics: z-score the current flight/dwell means
against the baseline (std fallback 10 and 5); above the 2.5 threshold add
`min(40, z*10)` resp. `min(30, z*8)` scaled by the typing weight. -/
noncomputable def analyze_typing_dynamics (telemetry : Telemetry)
    (profile : Profile) : ℝ × TypingMetrics :=
  let baseline_stats := profile.baseline_stats
  let flightActive := telemetry.flight_vec ≠ [] ∧ baseline_stats.flight_mean.isSome
  let current_flight_mean := npMean telemetry.flight_vec
  let flight_z := calculate_z_score current_flight_mean
    (baseline_stats.flight_mean.getD 0) (some (baseline_stats.flight_std.getD 10))
  let flightRisk :=
    if flightActive ∧ RiskConfig.Z_SCORE_THRESHOLD < flight_z then
      min 40 (flight_z * 10) * RiskConfig.WEIGHTS_typing_dynamics
    else 0
  let dwellActive := telemetry.dwell_vec ≠ [] ∧ baseline_stats.dwell_mean.isSome
  let current_dwell_mean := npMean telemetry.dwell_vec
  let dwell_z := calculate_z_score current_dwell_mean
    (baseline_stats.dwell_mean.getD 0) (some (baseline_stats.dwell_std.getD 5))
  let dwellRisk :=
    if dwellActive ∧ RiskConfig.Z_SCORE_THRESHOLD < dwell_z then
      min 30 (dwell_z * 8) * RiskConfig.WEIGHTS_typing_dynamics
    else 0
  let metrics : TypingMetrics :=
    { flight_z_score := if flightActive then some flight_z else none
      flight_mean := if flightActive then some (pyRound current_flight_mean 2) else none
      dwell_z_score := if dwellActive then some dwell_z else none
      dwell_mean := if dwellActive then some (pyRound current_dwell_mean 2) else none }
  (pyRound (flightRisk + dwellRisk) 2, metrics)

/-- core_logic.calculate_geo_velocity: haversine distance (Earth radius
6371 km) divided by elapsed hours, rounded to 2 digits; 0 when the elapsed
time is non-positive. -/
noncomputable def calculate_geo_velocity (prev_location current_location : GeoPoint)
    (time_diff_seconds : ℝ) : ℝ :=
  if time_diff_seconds ≤ 0 then 0
  else
    let dlat := (current_location.lat - prev_location.lat) * Real.pi / 180
    let dlon := (current_location.lon - prev_location.lon) * Real.pi / 180
    let a := Real.sin (dlat / 2) ^ 2
      + Real.cos (prev_location.lat * Real.pi / 180)
        * Real.cos (current_location.lat * Real.pi / 180) * Real.sin (dlon / 2) ^ 2
    let c := 2 * npArctan2 (Real.sqrt a) (Real.sqrt (1 - a))
    let distance_km := 6371 * c
    let time_hours := time_diff_seconds / 3600
    pyRound (distance_km / time_hours) 2

/-- Metrics dictionary of analyze_geo_anomalies; a `false` flag models the
absent `impossible_travel` key. -/
structure GeoMetrics where
  velocity_kmh : Option ℝ := none
  distance_km : Option ℝ := none
  impossible_travel : Bool := false

/-- core_logic.analyze_geo_anomalies: active only with a current location, a
last location and a last-session timestamp; elapsed time is measured against
the wall clock `now` (`datetime.utcnow()`), velocity above 1000 km/h adds
`90 * geo weight` and flags impossible travel. -/
noncomputable def analyze_geo_anomalies (telemetry : Telemetry) (profile : Profile)
    (now : ℝ) : ℝ × GeoMetrics :=
  match telemetry.geo_location, profile.last_geo_location,
      profile.last_session_timestamp with
  | some current_geo, some last_geo, some last_time =>
    let time_diff := now - last_time
    let velocity := calculate_geo_velocity last_geo current_geo time_diff
    let metrics : GeoMetrics :=
      { velocity_kmh := some velocity
        distance_km := some (pyRound (velocity * (time_diff / 3600)) 2) }
    if RiskConfig.VELOCITY_MAX_KMH < velocity then
      (pyRound (90 * RiskConfig.WEIGHTS_geo_velocity) 2,
        { metrics with impossible_travel := true })
    else (pyRound 0 2, metrics)
  | _, _, _ => (pyRound 0 2, {})

/-- One attribute comparison inside analyze_device_consistency:
`(match_score, total_checks)` increments for a key present in both
fingerprints. -/
def attrCompare {α : Type} [DecidableEq α] (a b : Option α) : ℕ × ℕ :=
  match a, b with
  | some x, some y => (if x = y then 1 else 0, 1)
  | _, _ => (0, 0)

/-- Fuzzy fingerprint match of analyze_device_consistency: over the fixed keys
screenRes, colorDepth, cores, timezone, at least one comparable attribute and
a 75% match ratio. -/
def fingerprintMatches (current_fp known_fp : Fingerprint) : Bool :=
  let checks := [attrCompare current_fp.screenRes known_fp.screenRes,
    attrCompare current_fp.colorDepth known_fp.colorDepth,
    attrCompare current_fp.cores known_fp.cores,
    attrCompare current_fp.timezone known_fp.timezone]
  let match_score := (checks.map Prod.fst).sum
  let total_checks := (checks.map Prod.snd).sum
  decide (0 < total_checks) && decide ((0.75 : ℚ) ≤ (match_score : ℚ) / (total_checks : ℚ))

/-- Metrics dictionary of analyze_device_consistency; `false` models an absent
key. -/
structure DeviceMetrics where
  new_device : Bool := false
  known_device : Bool := false

/-- core_logic.analyze_device_consistency: inactive (early return 0) when the
current fingerprint dict or the known-fingerprint list is empty; otherwise an
unmatched device adds `60 * device weight` and flags `new_device`. -/
noncomputable def analyze_device_consistency (telemetry : Telemetry)
    (profile : Profile) : ℝ × DeviceMetrics :=
  let current_fp := telemetry.fingerprint.getD {}
  let known_fps := profile.known_fingerprints
  if current_fp.isEmptyDict ∨ known_fps = [] then (0, {})
  else if known_fps.any (fingerprintMatches current_fp) then
    (pyRound 0 2, { known_device := true })
  else
    (pyRound (60 * RiskConfig.WEIGHTS_device_fingerprint) 2, { new_device := true })

/-- Flat environment contribution of the aggregator (core_logic.py line 544):
30 whenever the anomaly list is non-empty. -/
noncomputable def envRiskContribution (env_anomalies : List String) : ℝ :=
  if env_anomalies ≠ [] then 30 else 0

/-- Mouse-entropy contribution of the aggregator (core_logic.py line 552):
`85 * mouse weight` whenever the entropy is below the 0.8 bot threshold. -/
noncomputable def mouseRiskContribution (entropy : ℝ) : ℝ :=
  if entropy < RiskConfig.ENTROPY_THRESHOLD_LOW then
    85 * RiskConfig.WEIGHTS_mouse_dynamics
  else 0

/-- Reason string appended for a non-empty environment anomaly list. -/
def envReason (env_anomalies : List String) : String :=
  "Environment: " ++ pyJoin ", " env_anomalies

/-- Reason string appended for a low mouse entropy; `fmt` models the Python
float formatting of the interpolated entropy value. -/
def botReason (fmt : ℝ → String) (entropy : ℝ) : String :=
  "Bot detected: Low movement entropy (" ++ fmt entropy ++ ")"

/-- Metrics dictionary assembled by analyze_risk; `none` and `false` model
absent keys, and the iso-format `timestamp` string is abstracted to the raw
wall-clock value it formats. -/
structure AnalysisMetrics where
  timestamp : ℝ
  analysis_version : String := "2.0"
  environment_anomalies : Option (List String) := none
  mouse_entropy : ℝ := 0
  bot_detected : Bool := false
  mouse_anomalies : Option (List String) := none
  typing_dynamics : TypingMetrics := {}
  geo_analysis : GeoMetrics := {}
  device_analysis : DeviceMetrics := {}
  risk_score : ℤ := 0
  risk_factors : List String := []

/-- Result triple of analyze_risk. -/
structure AnalysisResult where
  score : ℤ
  reason : String
  metrics : AnalysisMetrics

/-- core_logic.analyze_risk: the main orchestrator.  `now` is the wall clock
(`datetime.utcnow()`), read once for the metrics timestamp and used by the
geo analyzer; `fmt` models Python float formatting inside the bot reason. -/
noncomputable def analyze_risk (fmt : ℝ → String) (telemetry : Telemetry)
    (profile : Profile) (now : ℝ) : AnalysisResult :=
  let env_anomalies := detect_environment_anomalies telemetry
  let bot := detect_bot_movement telemetry.mouse_path
  let entropy := bot.1
  let mouse_anomalies := bot.2
  let typing := analyze_typing_dynamics telemetry profile
  let geo := analyze_geo_anomalies telemetry profile now
  let device := analyze_device_consistency telemetry profile
  let total_risk := envRiskContribution env_anomalies + mouseRiskContribution entropy
    + typing.1 + geo.1 + device.1
  let reasons : List String :=
    (if env_anomalies ≠ [] then [envReason env_anomalies] else [])
    ++ (if entropy < RiskConfig.ENTROPY_THRESHOLD_LOW then [botReason fmt entropy] else [])
    ++ (if 20 < typing.1 then ["Anomalous typing pattern detected"] else [])
    ++ (if 50 < geo.1 then ["Impossible travel detected"] else [])
    ++ (if 30 < device.1 then ["Unrecognized device"] else [])
  let total_locked := if profile.is_locked then (100 : ℝ) else total_risk
  let reasons_locked :=
    if profile.is_locked then [profile.locked_reason.getD "Account locked"] else reasons
  let floored := max total_locked 10
  let final_score := min (pyInt floored) 100
  let reason_str :=
    if reasons_locked = [] then "Normal behavior"
    else pyJoin "; " (reasons_locked.take 3)
  { score := final_score
    reason := reason_str
    metrics :=
      { timestamp := now
        environment_anomalies := if env_anomalies ≠ [] then some env_anomalies else none
        mouse_entropy := entropy
        bot_detected := decide (entropy < RiskConfig.ENTROPY_THRESHOLD_LOW)
        mouse_anomalies := if mouse_anomalies ≠ [] then some mouse_anomalies else none
        typing_dynamics := typing.2
        geo_analysis := geo.2
        device_analysis := device.2
        risk_score := final_score
        risk_factors := reasons_locked } }

/-- Decision mapping of api.verify_session (lines 203-208), with the default
environment thresholds `RISK_THRESHOLD_LOW = 40` and `RISK_THRESHOLD_HIGH = 80`. -/
def riskDecision (risk_score : ℤ) : String :=
  if risk_score < 40 then "ALLOW" else if risk_score < 80 then "VERIFY" else "LOCK"

/-- Baseline-stats value written by api.verify_session (lines 236-250) when the
telemetry carries a non-empty flight vector: exponential moving average with
alpha 0.3 on the flight mean (the old mean defaulting to the current one), the
raw session standard deviation as flight std, and no dwell keys at all. -/
noncomputable def updatedBaselineStats (old_stats : BaselineStats)
    (flight_vec : List ℝ) : BaselineStats :=
  let current_flight_mean := npMean flight_vec
  let old_flight_mean := old_stats.flight_mean.getD current_flight_mean
  let new_flight_mean := 0.7 * old_flight_mean + 0.3 * current_flight_mean
  { flight_mean := some new_flight_mean
    flight_std := some (npStd flight_vec)
    dwell_mean := none
    dwell_std := none }

/-- Baseline-stats map persisted after a verification (api.verify_session
lines 213-252): no update on a LOCK decision; otherwise, when the flight
vector is non-empty, the profile document's `baseline_stats` key is replaced
wholesale (Firestore `update` does not deep-merge nested maps) by
`updatedBaselineStats`; otherwise the stored map is left untouched. -/
noncomputable def persistedBaselineStats (decision : String) (telemetry : Telemetry)
    (profile : Profile) : BaselineStats :=
  if decision = "LOCK" then profile.baseline_stats
  else if telemetry.flight_vec ≠ [] then
    updatedBaselineStats profile.baseline_stats telemetry.flight_vec
  else profile.baseline_stats

/-! Concrete inputs shared by the evaluations below. -/

/-- Identity-free stand-in for the Python float formatting inside reason
strings. -/
def fmt0 : ℝ → String := fun _ => ""

/-- Telemetry dictionary with every key absent. -/
def emptyTelemetry : Telemetry := {}

/-- Freshly created profile (api.verify_session lines 167-176). -/
def freshProfile : Profile := {}

/-- Profile locked with a stored reason. -/
def lockedProfile : Profile :=
  { is_locked := true, locked_reason := some "Suspicious activity" }

/-- Telemetry carrying only a location on the equator at longitude 180. -/
noncomputable def geoTelemetry : Telemetry := { geo_location := some ⟨0, 180⟩ }

/-- Profile whose last session was at the origin at epoch time 0. -/
noncomputable def geoProfile : Profile :=
  { last_geo_location := some ⟨0, 0⟩, last_session_timestamp := some 0 }

/-- Telemetry carrying one flight-time sample of 120 ms. -/
noncomputable def c6Telemetry : Telemetry := { flight_vec := [120] }

/-- Profile with a full baseline (flight and dwell statistics). -/
noncomputable def c6Profile : Profile :=
  { baseline_stats := ⟨some 100, some 15, some 48, some 5⟩ }

/-! Helper lemmas about the rounding primitives. -/

lemma pyRoundInt_intCast (n : ℤ) : pyRoundInt (n : ℝ) = n := by
  unfold pyRoundInt
  rw [Int.fract_intCast]
  norm_num [round_intCast]

lemma pyRound_eq_int (x : ℝ) (d : ℕ) (n : ℤ) (h : x * 10 ^ d = (n : ℝ)) :
    pyRound x d = n / 10 ^ d := by
  unfold pyRound
  rw [h, pyRoundInt_intCast]

lemma pyRound_zero (d : ℕ) : pyRound 0 d = 0 := by
  rw [pyRound_eq_int 0 d 0 (by norm_num)]
  norm_num

lemma pyRound_geo : pyRound (90 * RiskConfig.WEIGHTS_geo_velocity) 2 = 9 := by
  rw [pyRound_eq_int _ _ 900 (by norm_num [RiskConfig.WEIGHTS_geo_velocity])]
  norm_num

lemma pyRound_device : pyRound (60 * RiskConfig.WEIGHTS_device_fingerprint) 2 = 6 := by
  rw [pyRound_eq_int _ _ 600 (by norm_num [RiskConfig.WEIGHTS_device_fingerprint])]
  norm_num

lemma floor_le_pyRoundInt (y : ℝ) : ⌊y⌋ ≤ pyRoundInt y := by
  unfold pyRoundInt
  split_ifs with h1 h2
  · exact le_refl _
  · exact le_of_lt (lt_add_one _)
  · rw [round_eq]
    exact Int.floor_le_floor (by linarith)

lemma pyRoundInt_le_add_one (y : ℝ) : (pyRoundInt y : ℝ) ≤ y + 1 := by
  unfold pyRoundInt
  split_ifs with h1 h2
  · have := Int.floor_le y
    linarith
  · have := Int.floor_le y
    push_cast
    linarith
  · rw [round_eq]
    have := Int.floor_le (y + 1 / 2)
    linarith

lemma pyRound_neg_of_lt (x : ℝ) (d : ℕ) (h : x * 10 ^ d < -1) : pyRound x d < 0 := by
  unfold pyRound
  apply div_neg_of_neg_of_pos
  · have := pyRoundInt_le_add_one (x * 10 ^ d)
    linarith
  · positivity

/-! Helper lemmas evaluating the analyzers on the degenerate branches. -/

lemma detect_bot_short (mp : List MousePoint) (h : mp.length < 5) :
    detect_bot_movement mp = (0.5, ["INSUFFICIENT_DATA"]) := by
  unfold detect_bot_movement
  rw [if_pos (Or.inr h)]

lemma typing_zero (t : Telemetry) (p : Profile) (hf : t.flight_vec = [])
    (hd : t.dwell_vec = []) : analyze_typing_dynamics t p = (0, {}) := by
  unfold analyze_typing_dynamics
  simp only [hf, hd, ne_eq, not_true_eq_false, false_and, if_false, and_false]
  simp [pyRound_zero]

lemma geo_default (t : Telemetry) (p : Profile) (n : ℝ) (h : t.geo_location = none) :
    analyze_geo_anomalies t p n = (0, {}) := by
  unfold analyze_geo_anomalies
  rw [h]
  simp [pyRound_zero]

lemma device_default (t : Telemetry) (p : Profile) (h : t.fingerprint = none) :
    analyze_device_consistency t p = (0, {}) := by
  unfold analyze_device_consistency
  rw [h]
  exact if_pos (Or.inl rfl)

lemma geo_risk_cases (t : Telemetry) (p : Profile) (n : ℝ) :
    (analyze_geo_anomalies t p n).1 = 9 ∨ (analyze_geo_anomalies t p n).1 = 0 := by
  unfold analyze_geo_anomalies
  cases t.geo_location <;> cases p.last_geo_location <;>
    cases p.last_session_timestamp <;> simp [pyRound_zero]
  split_ifs
  · left
    simpa using pyRound_geo
  · right
    rfl

lemma device_risk_cases (t : Telemetry) (p : Profile) :
    (analyze_device_consistency t p).1 = 6 ∨ (analyze_device_consistency t p).1 = 0 := by
  dsimp only [analyze_device_consistency]
  split_ifs
  · right
    rfl
  · right
    simpa using pyRound_zero 2
  · left
    simpa using pyRound_device

/-! Helper lemmas about reason strings. -/

lemma append_ne_of_head_ne (pre s t : String) (c d : Char) (lpre ltail : List Char)
    (hpre : pre.data = c :: lpre) (ht : t.data = d :: ltail) (hcd : c ≠ d) :
    pre ++ s ≠ t := by
  intro h
  have h2 := congrArg String.data h
  rw [String.data_append, hpre, ht, List.cons_append] at h2
  injection h2 with h3 _
  exact hcd h3

lemma envReason_ne_impossible (l : List String) :
    envReason l ≠ "Impossible travel detected" :=
  append_ne_of_head_ne "Environment: " (pyJoin ", " l) _ 'E' 'I'
    "nvironment: ".data "mpossible travel detected".data (by decide) (by decide)
    (by decide)

lemma envReason_ne_unrecognized (l : List String) :
    envReason l ≠ "Unrecognized device" :=
  append_ne_of_head_ne "Environment: " (pyJoin ", " l) _ 'E' 'U'
    "nvironment: ".data "nrecognized device".data (by decide) (by decide) (by decide)

lemma botReason_ne_impossible (fmt : ℝ → String) (e : ℝ) :
    botReason fmt e ≠ "Impossible travel detected" := by
  unfold botReason
  rw [String.append_assoc]
  exact append_ne_of_head_ne "Bot detected: Low movement entropy (" _ _ 'B' 'I'
    "ot detected: Low movement entropy (".data "mpossible travel detected".data
    (by decide) (by decide) (by decide)

lemma botReason_ne_unrecognized (fmt : ℝ → String) (e : ℝ) :
    botReason fmt e ≠ "Unrecognized device" := by
  unfold botReason
  rw [String.append_assoc]
  exact append_ne_of_head_ne "Bot detected: Low movement entropy (" _ _ 'B' 'U'
    "ot detected: Low movement entropy (".data "nrecognized device".data
    (by decide) (by decide) (by decide)

/-! Helper lemmas about the aggregator. -/

lemma analyze_risk_timestamp (fmt : ℝ → String) (t : Telemetry) (p : Profile)
    (n : ℝ) : (analyze_risk fmt t p n).metrics.timestamp = n := rfl

lemma analyze_risk_locked_eval (fmt : ℝ → String) (t : Telemetry) (p : Profile)
    (n : ℝ) (h : p.is_locked = true) :
    (analyze_risk fmt t p n).score = 100
      ∧ (analyze_risk fmt t p n).reason = p.locked_reason.getD "Account locked"
      ∧ (analyze_risk fmt t p n).metrics.risk_factors
          = [p.locked_reason.getD "Account locked"] := by
  unfold analyze_risk
  simp only [h, if_pos rfl, ite_true]
  refine ⟨?_, ?_, trivial⟩
  · show min (pyInt (max 100 10)) 100 = 100
    rw [max_eq_left (by norm_num)]
    rw [pyInt, if_pos (by norm_num)]
    norm_num
  · rw [if_neg (List.cons_ne_nil _ _)]
    rfl

lemma score_bounds (T : ℝ) :
    10 ≤ min (pyInt (max T 10)) 100 ∧ min (pyInt (max T 10)) 100 ≤ 100 := by
  constructor
  · refine le_min ?_ (by norm_num)
    have h10 : (10 : ℝ) ≤ max T 10 := le_max_right _ _
    have h0 : (0 : ℝ) ≤ max T 10 := le_trans (by norm_num) h10
    rw [pyInt, if_pos h0]
    exact_mod_cast Int.le_floor.mpr (by exact_mod_cast h10)
  · exact min_le_right _ _

/-! Helper lemmas for the concrete geo-velocity counterexample. -/

lemma geo_velocity_eval :
    calculate_geo_velocity ⟨0, 0⟩ ⟨0, 180⟩ (3600 - 0) = pyRound (6371 * Real.pi) 2 := by
  unfold calculate_geo_velocity npArctan2
  rw [if_neg (by norm_num)]
  have h2 : ((180 : ℝ) - 0) * Real.pi / 180 / 2 = Real.pi / 2 := by ring
  norm_num [h2, Real.sin_pi_div_two, Real.cos_zero, Real.sin_zero, Real.sqrt_one,
    Real.sqrt_zero]
  congr 1
  ring

lemma velocity_big : (1000 : ℝ) < pyRound (6371 * Real.pi) 2 := by
  unfold pyRound
  have h1 : (2001508 : ℤ) ≤ ⌊6371 * Real.pi * 10 ^ 2⌋ := by
    apply Int.le_floor.mpr
    push_cast
    nlinarith [Real.pi_gt_d6]
  have h2 := floor_le_pyRoundInt (6371 * Real.pi * 10 ^ 2)
  have h3 : (2001508 : ℝ) ≤ (pyRoundInt (6371 * Real.pi * 10 ^ 2) : ℝ) := by
    exact_mod_cast le_trans h1 h2
  rw [lt_div_iff₀ (by norm_num)]
  linarith

lemma geo_anomalies_eval :
    analyze_geo_anomalies geoTelemetry geoProfile 3600
      = (9, { velocity_kmh := some (pyRound (6371 * Real.pi) 2),
              distance_km := some (pyRound (pyRound (6371 * Real.pi) 2 * ((3600 - 0) / 3600)) 2),
              impossible_travel := true }) := by
  simp only [analyze_geo_anomalies, geoTelemetry, geoProfile]
  rw [geo_velocity_eval]
  rw [if_pos (by rw [RiskConfig.VELOCITY_MAX_KMH]; exact velocity_big)]
  rw [pyRound_geo]

/-! Helper lemmas for the entropy comparison. -/

lemma code_entropy_neg : calculate_shannon_entropy [0, 1, 2] 10 < 0 := by
  unfold calculate_shannon_entropy
  rw [if_neg (by simp)]
  have hhist : npHistogramDensity [0, 1, 2] 10
      = [5/3, 0, 0, 0, 0, 5/3, 0, 0, 0, 5/3] := by
    unfold npHistogramDensity histBinCount
    norm_num [listMin, listMax, List.foldl, min_def, max_def, List.range_succ,
      List.filter_cons, List.filter_nil, decide_eq_true_eq]
  rw [hhist]
  have hfilter : (([5/3, 0, 0, 0, 0, 5/3, 0, 0, 0, 5/3] : List ℝ).filter
      fun h => decide (0 < h)) = [5/3, 5/3, 5/3] := by
    norm_num [List.filter_cons, List.filter_nil, decide_eq_true_eq]
  rw [hfilter]
  have hL : (1 : ℝ) / 2 < Real.logb 2 (5 / 3 + 1e-10) := by
    rw [Real.lt_logb_iff_rpow_lt (by norm_num) (by norm_num), ← Real.sqrt_eq_rpow,
      Real.sqrt_lt' (by norm_num)]
    norm_num
  have hsum : ((([5/3, 5/3, 5/3] : List ℝ).map fun h => h * Real.logb 2 (h + 1e-10)).sum)
      = 5 * Real.logb 2 (5 / 3 + 1e-10) := by
    norm_num [List.map_cons, List.sum_cons]
    ring
  apply pyRound_neg_of_lt
  rw [hsum]
  nlinarith [hL]

lemma spec_entropy_eval : shannonEntropySpec [0, 1, 2] 10 = Real.logb 2 3 := by
  unfold shannonEntropySpec histBinCount
  rw [if_neg (by simp)]
  norm_num [listMin, listMax, List.foldl, min_def, max_def, List.range_succ,
    List.filter_cons, List.filter_nil, decide_eq_true_eq, List.map_cons, List.sum_cons,
    one_div, Real.logb_inv]
  rw [show (1 : ℝ) / 3 = ((3 : ℝ))⁻¹ by norm_num, Real.logb_inv]
  ring

/-! Helper lemmas about the environment detector. -/

lemma env_eval_nofp (t : Telemetry) (hb : t.bot_flags = []) (hf : t.fingerprint = none) :
    detect_environment_anomalies t
      = ["INVALID_SCREEN_DIMENSIONS", "SUSPICIOUS_HARDWARE"] := by
  unfold detect_environment_anomalies
  rw [hb, hf]
  rfl

lemma env_tags_of_empty_fingerprint (t : Telemetry)
    (hf : (t.fingerprint.getD {}).isEmptyDict = true) :
    "INVALID_SCREEN_DIMENSIONS" ∈ detect_environment_anomalies t
      ∧ "SUSPICIOUS_HARDWARE" ∈ detect_environment_anomalies t := by
  unfold Fingerprint.isEmptyDict at hf
  simp only [Bool.and_eq_true, Option.isNone_iff_eq_none] at hf
  obtain ⟨⟨⟨⟨hua, hsr⟩, hcd⟩, hco⟩, htz⟩ := hf
  simp only [detect_environment_anomalies]
  rw [hsr, hco]
  constructor <;> simp [List.mem_dedup, List.mem_append]

/-! Evaluation of the aggregator on the empty telemetry. -/

lemma analyze_risk_empty_eval (fmt : ℝ → String) (n : ℝ) :
    (analyze_risk fmt emptyTelemetry freshProfile n).score = 51
      ∧ (analyze_risk fmt emptyTelemetry freshProfile n).reason
          = envReason ["INVALID_SCREEN_DIMENSIONS", "SUSPICIOUS_HARDWARE"] ++ "; "
            ++ botReason fmt 0.5 := by
  unfold analyze_risk
  rw [detect_bot_short _ (by decide), typing_zero _ _ rfl rfl,
    geo_default _ _ _ rfl, device_default _ _ rfl,
    env_eval_nofp emptyTelemetry rfl rfl]
  constructor
  · simp only [envRiskContribution, mouseRiskContribution, RiskConfig.ENTROPY_THRESHOLD_LOW,
      freshProfile]
    rw [if_neg (by decide : ¬(false = true)),
      if_pos (by decide : (["INVALID_SCREEN_DIMENSIONS", "SUSPICIOUS_HARDWARE"] : List String) ≠ []),
      if_pos (by norm_num : (0.5 : ℝ) < 0.8)]
    norm_num [pyInt, RiskConfig.WEIGHTS_mouse_dynamics, max_def, min_def]
  · simp only [freshProfile]
    rw [if_pos (by decide : (["INVALID_SCREEN_DIMENSIONS", "SUSPICIOUS_HARDWARE"] : List String) ≠ []),
      if_pos (by norm_num [RiskConfig.ENTROPY_THRESHOLD_LOW] :
        (0.5 : ℝ) < RiskConfig.ENTROPY_THRESHOLD_LOW)]
    rw [if_neg (by norm_num : ¬((20 : ℝ) < 0)), if_neg (by norm_num : ¬((50 : ℝ) < 0)),
      if_neg (by norm_num : ¬((30 : ℝ) < 0))]
    simp only [if_neg (by decide : ¬(false = true))]
    simp only [List.append_nil, List.cons_append, List.nil_append]
    rw [if_neg (List.cons_ne_nil _ _)]
    rfl

/-! Evaluation of the aggregator on the impossible-travel telemetry. -/

lemma analyze_risk_geo_eval :
    (analyze_risk fmt0 geoTelemetry geoProfile 3600).metrics.risk_factors
      = [envReason ["INVALID_SCREEN_DIMENSIONS", "SUSPICIOUS_HARDWARE"], botReason fmt0 0.5] := by
  unfold analyze_risk
  rw [detect_bot_short _ (by show (geoTelemetry.mouse_path).length < 5; rw [geoTelemetry]; decide),
    typing_zero _ _ rfl rfl, geo_anomalies_eval, device_default _ _ rfl,
    env_eval_nofp geoTelemetry rfl rfl]
  simp only [geoProfile]
  rw [if_pos (by decide : (["INVALID_SCREEN_DIMENSIONS", "SUSPICIOUS_HARDWARE"] : List String) ≠ []),
    if_pos (by norm_num [RiskConfig.ENTROPY_THRESHOLD_LOW] :
      (0.5 : ℝ) < RiskConfig.ENTROPY_THRESHOLD_LOW)]
  rw [if_neg (by norm_num : ¬((20 : ℝ) < 0)), if_neg (by norm_num : ¬((50 : ℝ) < 9)),
    if_neg (by norm_num : ¬((30 : ℝ) < 0))]
  simp only [if_neg (by decide : ¬(false = true))]
  simp only [List.append_nil, List.cons_append, List.nil_append]

lemma mem_ite_singleton {c : Prop} [Decidable c] {x y : String}
    (h : x ∈ (if c then [y] else ([] : List String))) : x = y := by
  by_cases hc : c
  · rw [if_pos hc] at h
    exact List.mem_singleton.mp h
  · rw [if_neg hc] at h
    exact absurd h (List.not_mem_nil x)

/-! The claims. -/

/-- C1: for every telemetry and every locked profile, analyze_risk returns
score exactly 100 and the reason equals the stored locked_reason (falling back
to "Account locked"), regardless of the telemetry. -/
theorem C1_locked_override (fmt : ℝ → String) (t : Telemetry) (p : Profile)
    (n : ℝ) (h : p.is_locked = true) :
    (analyze_risk fmt t p n).score = 100
      ∧ (analyze_risk fmt t p n).reason = p.locked_reason.getD "Account locked" :=
  ⟨(analyze_risk_locked_eval fmt t p n h).1, (analyze_risk_locked_eval fmt t p n h).2.1⟩

/-- C1 witness: a locked profile with stored reason evaluates to score 100 and
that reason. -/
theorem C1_locked_override_witness :
    lockedProfile.is_locked = true
      ∧ (analyze_risk fmt0 emptyTelemetry lockedProfile 0).score = 100
      ∧ (analyze_risk fmt0 emptyTelemetry lockedProfile 0).reason = "Suspicious activity" := by
  refine ⟨rfl, (C1_locked_override fmt0 emptyTelemetry lockedProfile 0 rfl).1, ?_⟩
  have h := (C1_locked_override fmt0 emptyTelemetry lockedProfile 0 rfl).2
  simpa [lockedProfile] using h

/-- C2: for every telemetry and profile the score is an integer in [10, 100],
and exactly 100 for a locked profile. -/
theorem C2_score_bounded (fmt : ℝ → String) (t : Telemetry) (p : Profile) (n : ℝ) :
    10 ≤ (analyze_risk fmt t p n).score
      ∧ (analyze_risk fmt t p n).score ≤ 100
      ∧ (p.is_locked = true → (analyze_risk fmt t p n).score = 100) := by
  have hb : 10 ≤ (analyze_risk fmt t p n).score
      ∧ (analyze_risk fmt t p n).score ≤ 100 := by
    simp only [analyze_risk]
    exact score_bounds _
  exact ⟨hb.1, hb.2, fun h => (analyze_risk_locked_eval fmt t p n h).1⟩

/-- C2 witness: the bounds and the locked case hold at a concrete locked
profile. -/
theorem C2_score_bounded_witness :
    10 ≤ (analyze_risk fmt0 emptyTelemetry lockedProfile 0).score
      ∧ (analyze_risk fmt0 emptyTelemetry lockedProfile 0).score ≤ 100
      ∧ (analyze_risk fmt0 emptyTelemetry lockedProfile 0).score = 100 :=
  ⟨(C2_score_bounded fmt0 emptyTelemetry lockedProfile 0).1,
    (C2_score_bounded fmt0 emptyTelemetry lockedProfile 0).2.1,
    (C2_score_bounded fmt0 emptyTelemetry lockedProfile 0).2.2 rfl⟩

/-- C3 counterexample: on empty telemetry and a fresh profile the engine
returns score 51 (environment 30 plus bot 21.25, then truncation), not the
claimed floor 10 with reason "Normal behavior" and decision ALLOW. -/
theorem C3_scenarioA_counterexample :
    (analyze_risk fmt0 emptyTelemetry freshProfile 0).score = 51
      ∧ ¬((analyze_risk fmt0 emptyTelemetry freshProfile 0).score = 10
            ∧ (analyze_risk fmt0 emptyTelemetry freshProfile 0).reason = "Normal behavior"
            ∧ riskDecision (analyze_risk fmt0 emptyTelemetry freshProfile 0).score
                = "ALLOW") := by
  obtain ⟨hs, hr⟩ := analyze_risk_empty_eval fmt0 0
  refine ⟨hs, fun hclaim => ?_⟩
  rw [hs] at hclaim
  exact absurd hclaim.1 (by decide)

/-- C3 amended: empty telemetry with a fresh profile scores 51 (the missing
fingerprint counts as a degenerate environment and the missing mouse path as a
bot signal), the decision is VERIFY, and the reason is the environment and bot
reasons joined, not "Normal behavior". -/
theorem C3_scenarioA_amended (fmt : ℝ → String) (n : ℝ) :
    (analyze_risk fmt emptyTelemetry freshProfile n).score = 51
      ∧ riskDecision (analyze_risk fmt emptyTelemetry freshProfile n).score = "VERIFY"
      ∧ (analyze_risk fmt emptyTelemetry freshProfile n).reason
          = envReason ["INVALID_SCREEN_DIMENSIONS", "SUSPICIOUS_HARDWARE"] ++ "; "
            ++ botReason fmt 0.5
      ∧ (analyze_risk fmt emptyTelemetry freshProfile n).reason ≠ "Normal behavior" := by
  obtain ⟨hs, hr⟩ := analyze_risk_empty_eval fmt n
  refine ⟨hs, by rw [hs]; decide, hr, ?_⟩
  rw [hr]
  unfold envReason
  rw [String.append_assoc, String.append_assoc]
  exact append_ne_of_head_ne "Environment: " _ _ 'E' 'N' "nvironment: ".data
    "ormal behavior".data (by decide) (by decide) (by decide)

/-- C4 counterexample: with identical telemetry and profile but different
wall-clock instants the outputs differ (the metrics embed the clock reading,
and the geo analyzer measures elapsed time against it), so the function is not
independent of wall-clock time. -/
theorem C4_determinism_counterexample :
    analyze_risk fmt0 emptyTelemetry freshProfile 0
      ≠ analyze_risk fmt0 emptyTelemetry freshProfile 1 := by
  intro h
  have h2 := congrArg (fun r => r.metrics.timestamp) h
  simp only [analyze_risk_timestamp] at h2
  norm_num at h2

/-- C4 amended: analyze_risk is a deterministic pure function of telemetry,
profile and the wall-clock reading; two invocations agreeing on all three
(including the clock) produce identical output. -/
theorem C4_determinism_amended (fmt : ℝ → String) (t : Telemetry) (p : Profile)
    (n1 n2 : ℝ) (h : n1 = n2) :
    analyze_risk fmt t p n1 = analyze_risk fmt t p n2 := by
  rw [h]

/-- C4 witness: two invocations at the same instant coincide. -/
theorem C4_determinism_amended_witness :
    analyze_risk fmt0 emptyTelemetry freshProfile 0
      = analyze_risk fmt0 emptyTelemetry freshProfile 0 :=
  C4_determinism_amended fmt0 emptyTelemetry freshProfile 0 0 rfl

/-- C5 counterexample: an impossible-travel telemetry (antipodal jump within
an hour) sets the impossible_travel flag, yet the reasons list does not
contain the impossible-travel reason, because the aggregator compares the
already-weighted geo risk (9) against 50. -/
theorem C5_reasons_counterexample :
    (analyze_risk fmt0 geoTelemetry geoProfile 3600).metrics.geo_analysis.impossible_travel
        = true
      ∧ "Impossible travel detected"
          ∉ (analyze_risk fmt0 geoTelemetry geoProfile 3600).metrics.risk_factors := by
  constructor
  · show (analyze_geo_anomalies geoTelemetry geoProfile 3600).2.impossible_travel = true
    rw [geo_anomalies_eval]
  · rw [analyze_risk_geo_eval]
    decide

/-- C5 amended: for unlocked profiles the geo and device reason texts can
never appear in the reasons list: the aggregator compares the weighted geo
contribution (at most 9) against 50 and the weighted device contribution (at
most 6) against 30, so both thresholds are unreachable. -/
theorem C5_reasons_amended (fmt : ℝ → String) (t : Telemetry) (p : Profile) (n : ℝ)
    (hlock : p.is_locked = false) :
    "Impossible travel detected" ∉ (analyze_risk fmt t p n).metrics.risk_factors
      ∧ "Unrecognized device" ∉ (analyze_risk fmt t p n).metrics.risk_factors := by
  have hgeo : ¬(50 : ℝ) < (analyze_geo_anomalies t p n).1 := by
    rcases geo_risk_cases t p n with hg | hg <;> rw [hg] <;> norm_num
  have hdev : ¬(30 : ℝ) < (analyze_device_consistency t p).1 := by
    rcases device_risk_cases t p with hd | hd <;> rw [hd] <;> norm_num
  unfold analyze_risk
  simp only [hlock]
  simp only [if_neg (by decide : ¬(false = true))]
  rw [if_neg hgeo, if_neg hdev]
  constructor <;> intro hmem <;>
    simp only [List.append_nil, List.nil_append, List.mem_append] at hmem
  · rcases hmem with (h | h) | h
    · exact envReason_ne_impossible _ (mem_ite_singleton h).symm
    · exact botReason_ne_impossible fmt _ (mem_ite_singleton h).symm
    · exact absurd (mem_ite_singleton h) (by decide)
  · rcases hmem with (h | h) | h
    · exact envReason_ne_unrecognized _ (mem_ite_singleton h).symm
    · exact botReason_ne_unrecognized fmt _ (mem_ite_singleton h).symm
    · exact absurd (mem_ite_singleton h) (by decide)

/-- C5 witness: at a concrete unlocked input neither reason appears. -/
theorem C5_reasons_amended_witness :
    freshProfile.is_locked = false
      ∧ "Impossible travel detected"
          ∉ (analyze_risk fmt0 emptyTelemetry freshProfile 0).metrics.risk_factors
      ∧ "Unrecognized device"
          ∉ (analyze_risk fmt0 emptyTelemetry freshProfile 0).metrics.risk_factors :=
  ⟨rfl, (C5_reasons_amended fmt0 emptyTelemetry freshProfile 0 rfl).1,
    (C5_reasons_amended fmt0 emptyTelemetry freshProfile 0 rfl).2⟩

/-- C6 counterexample: the profile update after a non-LOCK verification with a
non-empty flight vector replaces the whole baseline map: the dwell fields are
dropped (not kept as running statistics) and flight std becomes the raw
session deviation (0 for a single sample), while the flight mean does follow
the 0.7/0.3 moving average. -/
theorem C6_baseline_counterexample :
    c6Profile.baseline_stats.dwell_mean = some 48
      ∧ c6Profile.baseline_stats.flight_std = some 15
      ∧ (persistedBaselineStats "ALLOW" c6Telemetry c6Profile).dwell_mean = none
      ∧ (persistedBaselineStats "ALLOW" c6Telemetry c6Profile).dwell_std = none
      ∧ (persistedBaselineStats "ALLOW" c6Telemetry c6Profile).flight_mean = some 106
      ∧ (persistedBaselineStats "ALLOW" c6Telemetry c6Profile).flight_std = some 0 := by
  have hmean : npMean [(120 : ℝ)] = 120 := by
    norm_num [npMean]
  have hstd : npStd [(120 : ℝ)] = 0 := by
    simp [npStd, npMean]
  have hmain : persistedBaselineStats "ALLOW" c6Telemetry c6Profile
      = { flight_mean := some (0.7 * 100 + 0.3 * npMean [(120 : ℝ)]),
          flight_std := some (npStd [(120 : ℝ)]),
          dwell_mean := none, dwell_std := none } := by
    unfold persistedBaselineStats updatedBaselineStats
    simp only [c6Telemetry, c6Profile]
    rw [if_neg (by decide), if_pos (by simp)]
    rfl
  rw [hmain]
  refine ⟨rfl, rfl, rfl, rfl, ?_, by rw [hstd]⟩
  rw [hmean]
  norm_num

/-- C6 amended: after a non-LOCK verification with a non-empty flight vector
the persisted baseline map has flight mean 0.7·old + 0.3·current (the claimed
moving average), but flight std is the raw current-session deviation and the
dwell fields are removed rather than kept. -/
theorem C6_baseline_amended (decision : String) (t : Telemetry) (p : Profile)
    (hdec : decision ≠ "LOCK") (hfv : t.flight_vec ≠ []) :
    (persistedBaselineStats decision t p).flight_mean
        = some (0.7 * p.baseline_stats.flight_mean.getD (npMean t.flight_vec)
            + 0.3 * npMean t.flight_vec)
      ∧ (persistedBaselineStats decision t p).flight_std = some (npStd t.flight_vec)
      ∧ (persistedBaselineStats decision t p).dwell_mean = none
      ∧ (persistedBaselineStats decision t p).dwell_std = none := by
  unfold persistedBaselineStats updatedBaselineStats
  rw [if_neg hdec, if_pos hfv]
  exact ⟨rfl, rfl, rfl, rfl⟩

/-- C6 witness: EMA of old mean 100 with session mean 120 gives 106 and the
dwell mean is gone. -/
theorem C6_baseline_amended_witness :
    ("ALLOW" : String) ≠ "LOCK" ∧ c6Telemetry.flight_vec ≠ []
      ∧ (persistedBaselineStats "ALLOW" c6Telemetry c6Profile).flight_mean = some 106
      ∧ (persistedBaselineStats "ALLOW" c6Telemetry c6Profile).dwell_mean = none := by
  have h := C6_baseline_amended "ALLOW" c6Telemetry c6Profile (by decide)
    (by simp [c6Telemetry])
  refine ⟨by decide, by simp [c6Telemetry], ?_, h.2.2.1⟩
  rw [h.1]
  have hmean : npMean c6Telemetry.flight_vec = 120 := by
    norm_num [npMean, c6Telemetry]
  rw [hmean]
  norm_num [c6Profile]

/-- C7: at the failing input [0, 1, 2] with 10 bins the code's entropy is
negative (numpy densities, counts divided by n·width, are plugged into the
entropy sum instead of probability masses), whereas the specified
probability-mass entropy is log2 3 > 0; the two disagree.  Below 3 samples
the fixed 0.5 default does hold. -/
theorem C7_entropy_code_bug :
    calculate_shannon_entropy [0, 1, 2] 10 < 0
      ∧ shannonEntropySpec [0, 1, 2] 10 = Real.logb 2 3
      ∧ 0 < shannonEntropySpec [0, 1, 2] 10
      ∧ calculate_shannon_entropy [0, 1, 2] 10 ≠ shannonEntropySpec [0, 1, 2] 10
      ∧ calculate_shannon_entropy [0, 1] 10 = 0.5
      ∧ shannonEntropySpec [0, 1] 10 = 0.5 := by
  have hc := code_entropy_neg
  have hs := spec_entropy_eval
  have hpos : 0 < shannonEntropySpec [0, 1, 2] 10 := by
    rw [hs]
    exact Real.logb_pos (by norm_num) (by norm_num)
  refine ⟨hc, hs, hpos, fun h => by rw [h] at hc; linarith, ?_, ?_⟩
  · unfold calculate_shannon_entropy
    rw [if_pos (Or.inr (by norm_num))]
  · unfold shannonEntropySpec
    rw [if_pos (Or.inr (by norm_num))]

/-- C8 counterexample: calculate_z_score(1, 0, 3) returns 0.33, the rounded
value, not |1 − 0| / 3 = 1/3 as the claim's formula states. -/
theorem C8_zscore_counterexample :
    calculate_z_score 1 0 (some 3) = 33 / 100
      ∧ calculate_z_score 1 0 (some 3) ≠ abs (((1 : ℝ) - 0) / 3) := by
  have habs : abs (((1 : ℝ) - 0) / 3) = 1 / 3 := by
    rw [abs_of_pos (by norm_num)]
    norm_num
  have h : calculate_z_score 1 0 (some 3) = 33 / 100 := by
    show (if (3 : ℝ) = 0 then 0 else pyRound (abs (((1 : ℝ) - 0) / 3)) 2) = 33 / 100
    rw [if_neg (by norm_num), habs]
    unfold pyRound pyRoundInt
    have hfr : ¬Int.fract ((1 : ℝ) / 3 * 10 ^ 2) = 1 / 2 := by
      rw [show (1 : ℝ) / 3 * 10 ^ 2 = 100 / 3 by norm_num]
      unfold Int.fract
      norm_num
    rw [if_neg hfr, round_eq]
    norm_num
  refine ⟨h, ?_⟩
  rw [h, habs]
  norm_num

/-- C8 amended: calculate_z_score returns 0 when the baseline std is 0 or
missing, and otherwise |x − mean| / std rounded to two decimal digits (a
total function, no division-by-zero failure). -/
theorem C8_zscore_amended (x m s : ℝ) :
    calculate_z_score x m none = 0
      ∧ calculate_z_score x m (some 0) = 0
      ∧ (s ≠ 0 → calculate_z_score x m (some s) = pyRound (abs ((x - m) / s)) 2) := by
  refine ⟨rfl, ?_, fun hs => ?_⟩
  · unfold calculate_z_score
    exact if_pos rfl
  · unfold calculate_z_score
    exact if_neg hs

/-- C8 witness: the non-zero branch evaluated at (1, 0, 3). -/
theorem C8_zscore_amended_witness :
    (3 : ℝ) ≠ 0
      ∧ calculate_z_score 1 0 (some 3) = pyRound (abs (((1 : ℝ) - 0) / 3)) 2 :=
  ⟨by norm_num, (C8_zscore_amended 1 0 3).2.2 (by norm_num)⟩

/-- C9 counterexample: for a locked profile the lock override replaces the
reasons list, so the environment reason is not added to that request even
though the fingerprint is absent. -/
theorem C9_env_default_counterexample :
    (emptyTelemetry.fingerprint.getD {}).isEmptyDict = true
      ∧ (analyze_risk fmt0 emptyTelemetry lockedProfile 0).metrics.risk_factors
          = ["Suspicious activity"]
      ∧ envReason (detect_environment_anomalies emptyTelemetry)
          ∉ (analyze_risk fmt0 emptyTelemetry lockedProfile 0).metrics.risk_factors := by
  have hrf : (analyze_risk fmt0 emptyTelemetry lockedProfile 0).metrics.risk_factors
      = ["Suspicious activity"] := by
    have h := (analyze_risk_locked_eval fmt0 emptyTelemetry lockedProfile 0 rfl).2.2
    simpa [lockedProfile] using h
  refine ⟨rfl, hrf, ?_⟩
  rw [hrf, env_eval_nofp emptyTelemetry rfl rfl]
  decide

/-- C9 amended: a telemetry whose fingerprint dict is absent or empty always
yields both INVALID_SCREEN_DIMENSIONS and SUSPICIOUS_HARDWARE, hence the flat
30-point environment contribution, and — for profiles that are not locked
(the lock override replaces the reasons) — an environment reason in the
output. -/
theorem C9_env_default_amended (fmt : ℝ → String) (t : Telemetry) (p : Profile)
    (n : ℝ) (hf : (t.fingerprint.getD {}).isEmptyDict = true) :
    "INVALID_SCREEN_DIMENSIONS" ∈ detect_environment_anomalies t
      ∧ "SUSPICIOUS_HARDWARE" ∈ detect_environment_anomalies t
      ∧ envRiskContribution (detect_environment_anomalies t) = 30
      ∧ (p.is_locked = false →
          envReason (detect_environment_anomalies t)
            ∈ (analyze_risk fmt t p n).metrics.risk_factors) := by
  obtain ⟨h1, h2⟩ := env_tags_of_empty_fingerprint t hf
  have hne : detect_environment_anomalies t ≠ [] := List.ne_nil_of_mem h1
  refine ⟨h1, h2, if_pos hne, fun hlock => ?_⟩
  unfold analyze_risk
  simp only [hlock]
  simp only [if_neg (by decide : ¬(false = true))]
  rw [if_pos hne]
  exact List.mem_append_left _ (List.mem_append_left _ (List.mem_append_left _
    (List.mem_append_left _ (List.mem_singleton.mpr rfl))))

/-- C9 witness: the empty telemetry against a fresh unlocked profile. -/
theorem C9_env_default_amended_witness :
    (emptyTelemetry.fingerprint.getD {}).isEmptyDict = true
      ∧ freshProfile.is_locked = false
      ∧ "INVALID_SCREEN_DIMENSIONS" ∈ detect_environment_anomalies emptyTelemetry
      ∧ envRiskContribution (detect_environment_anomalies emptyTelemetry) = 30
      ∧ envReason (detect_environment_anomalies emptyTelemetry)
          ∈ (analyze_risk fmt0 emptyTelemetry freshProfile 0).metrics.risk_factors :=
  ⟨rfl, rfl, (C9_env_default_amended fmt0 emptyTelemetry freshProfile 0 rfl).1,
    (C9_env_default_amended fmt0 emptyTelemetry freshProfile 0 rfl).2.2.1,
    (C9_env_default_amended fmt0 emptyTelemetry freshProfile 0 rfl).2.2.2 rfl⟩

/-- C10 counterexample: for a locked profile the lock override replaces the
reasons, so no bot reason is appended for that request even though the mouse
path is empty; the bot_detected metric is still set. -/
theorem C10_insufficient_counterexample :
    emptyTelemetry.mouse_path.length < 5
      ∧ (analyze_risk fmt0 emptyTelemetry lockedProfile 0).metrics.bot_detected = true
      ∧ botReason fmt0 0.5
          ∉ (analyze_risk fmt0 emptyTelemetry lockedProfile 0).metrics.risk_factors := by
  refine ⟨by decide, ?_, ?_⟩
  · have h : (analyze_risk fmt0 emptyTelemetry lockedProfile 0).metrics.bot_detected
        = decide ((0.5 : ℝ) < RiskConfig.ENTROPY_THRESHOLD_LOW) := by
      unfold analyze_risk
      rw [detect_bot_short _ (by decide)]
    rw [h, decide_eq_true_eq]
    norm_num [RiskConfig.ENTROPY_THRESHOLD_LOW]
  · have hrf : (analyze_risk fmt0 emptyTelemetry lockedProfile 0).metrics.risk_factors
        = ["Suspicious activity"] := by
      have h := (analyze_risk_locked_eval fmt0 emptyTelemetry lockedProfile 0 rfl).2.2
      simpa [lockedProfile] using h
    rw [hrf]
    decide

/-- C10 amended: a telemetry with fewer than 5 mouse samples gets the
INSUFFICIENT_DATA default entropy 0.5; since 0.5 is below the 0.8 bot
threshold, the mouse contribution is 85 · 0.25 = 21.25, bot_detected is set
in metrics, and — for profiles that are not locked (the lock override
replaces the reasons) — the bot reason is in the output. -/
theorem C10_insufficient_amended (fmt : ℝ → String) (t : Telemetry) (p : Profile)
    (n : ℝ) (hmp : t.mouse_path.length < 5) :
    detect_bot_movement t.mouse_path = (0.5, ["INSUFFICIENT_DATA"])
      ∧ mouseRiskContribution 0.5 = 85 * RiskConfig.WEIGHTS_mouse_dynamics
      ∧ mouseRiskContribution 0.5 = 21.25
      ∧ (analyze_risk fmt t p n).metrics.mouse_entropy = 0.5
      ∧ (analyze_risk fmt t p n).metrics.bot_detected = true
      ∧ (p.is_locked = false →
          botReason fmt 0.5 ∈ (analyze_risk fmt t p n).metrics.risk_factors) := by
  have hbot := detect_bot_short _ hmp
  have hcontrib : mouseRiskContribution 0.5 = 85 * RiskConfig.WEIGHTS_mouse_dynamics := by
    unfold mouseRiskContribution
    rw [if_pos (by norm_num [RiskConfig.ENTROPY_THRESHOLD_LOW])]
  refine ⟨hbot, hcontrib,
    by rw [hcontrib]; norm_num [RiskConfig.WEIGHTS_mouse_dynamics], ?_, ?_, ?_⟩
  · unfold analyze_risk
    rw [hbot]
  · have h : (analyze_risk fmt t p n).metrics.bot_detected
        = decide ((0.5 : ℝ) < RiskConfig.ENTROPY_THRESHOLD_LOW) := by
      unfold analyze_risk
      rw [hbot]
    rw [h, decide_eq_true_eq]
    norm_num [RiskConfig.ENTROPY_THRESHOLD_LOW]
  · intro hlock
    unfold analyze_risk
    rw [hbot]
    simp only [hlock]
    simp only [if_neg (by decide : ¬(false = true))]
    rw [if_pos (by norm_num [RiskConfig.ENTROPY_THRESHOLD_LOW] :
      (0.5 : ℝ) < RiskConfig.ENTROPY_THRESHOLD_LOW)]
    exact List.mem_append_left _ (List.mem_append_left _ (List.mem_append_left _
      (List.mem_append_right _ (List.mem_singleton.mpr rfl))))

/-- C10 witness: the empty telemetry against a fresh unlocked profile. -/
theorem C10_insufficient_amended_witness :
    emptyTelemetry.mouse_path.length < 5
      ∧ freshProfile.is_locked = false
      ∧ detect_bot_movement emptyTelemetry.mouse_path = (0.5, ["INSUFFICIENT_DATA"])
      ∧ mouseRiskContribution 0.5 = 21.25
      ∧ (analyze_risk fmt0 emptyTelemetry freshProfile 0).metrics.bot_detected = true
      ∧ botReason fmt0 0.5
          ∈ (analyze_risk fmt0 emptyTelemetry freshProfile 0).metrics.risk_factors :=
  ⟨by decide, rfl,
    (C10_insufficient_amended fmt0 emptyTelemetry freshProfile 0 (by decide)).1,
    (C10_insufficient_amended fmt0 emptyTelemetry freshProfile 0 (by decide)).2.2.1,
    (C10_insufficient_amended fmt0 emptyTelemetry freshProfile 0 (by decide)).2.2.2.2.1,
    (C10_insufficient_amended fmt0 emptyTelemetry freshProfile 0 (by decide)).2.2.2.2.2 rfl⟩

end AuthGuard
